import Mathlib

/-!
Verification of the EHS (Environment, Health and Safety) management system's
task-lifecycle and reporting core, as implemented in `manager/manager.cpp`,
`worker/worker.cpp`, `user/user.cpp` and `db/Database.cpp`.

The SQLite database is modelled as a `Store` of three row lists (users, tasks,
rules).  Each operation of the C++ code is translated into a pure function on
`Store`; prompting loops that reject malformed input model as returning a
typed error, and the SQLite behaviour that an UPDATE/DELETE touching zero rows
still reports `SQLITE_DONE` (success) is preserved faithfully.
-/

/-- Row of the `users` table (`Database.cpp`, `setupTables`):
`id INTEGER PRIMARY KEY, username TEXT UNIQUE, password TEXT, role TEXT`. -/
structure UserRow where
  id : Nat
  username : String
  password : String
  role : String
deriving Repr, DecidableEq

/-- Row of the `tasks` table (`Database.cpp`, `setupTables`):
`id, worker_id, worker_username, task_description, status, violation_comment,
violation_timestamp, worker_report, worker_media`.  Nullable TEXT columns are
`Option String`. -/
structure TaskRow where
  id : Nat
  workerId : Nat
  workerUsername : String
  taskDescription : String
  status : String
  violationComment : Option String
  violationTimestamp : Option String
  workerReport : Option String
  workerMedia : Option String
deriving Repr, DecidableEq

/-- Row of the `rules` table (`Database.cpp`, `setupTables`):
`id, rule_text NOT NULL, feedback, timestamp`. -/
structure Rule where
  id : Nat
  ruleText : String
  feedback : Option String
  timestamp : String
deriving Repr, DecidableEq

/-- The whole database.  `nextTaskId` models the `AUTOINCREMENT` counter of
the `tasks` table. -/
structure Store where
  users : List UserRow
  tasks : List TaskRow
  rules : List Rule
  nextTaskId : Nat
deriving Repr, DecidableEq

/-- Error taxonomy of the operations (spec section 7).  `validationError`
models the input loops that reject malformed input, `notFoundError` the
"Worker not found." abort in `Manager::assignTask`, and
`authorizationError` appears in the spec's contract for `Complete` (it is
used here only by the spec-side model `completeTaskSpec`). -/
inductive EHSError where
  | validationError
  | notFoundError
  | authorizationError
deriving Repr, DecidableEq

deriving instance DecidableEq for Except

/-- Outcome of a whole `Worker::reportTaskWork` run. -/
inductive SubmitOutcome where
  | invalidSelection
  | transferFailed
  | committed
deriving Repr, DecidableEq

/-- Lookup of a task row by id (`SELECT ... FROM tasks WHERE id = ?`). -/
def taskById (s : Store) (i : Nat) : Option TaskRow :=
  s.tasks.find? (fun t => t.id = i)

/-- The manager-side listing `SELECT ... FROM tasks;`
(`User::viewTaskDetails` with `isManager = true`, user.cpp line 157). -/
def listAll (s : Store) : List TaskRow :=
  s.tasks

/-- The worker-side listing `SELECT ... FROM tasks WHERE worker_id = ?;`
(`User::viewTaskDetails` with `isManager = false`, user.cpp line 158). -/
def listForWorker (s : Store) (w : Nat) : List TaskRow :=
  s.tasks.filter (fun t => decide (t.workerId = w))

/-- The purely-numeric check of `Manager::reportViolation`
(manager.cpp lines 146-153): `isNumeric` starts `true` and is cleared by the
first non-digit character, so the empty string also counts as numeric. -/
def isNumericStr (str : String) : Bool :=
  str.toList.all Char.isDigit

/-- `Manager::assignTask` (manager.cpp lines 31-98).  The worker id is
resolved with `SELECT username FROM users WHERE id = ?;` — note that the
query does not constrain `role`; if no row matches, the function prints
"Worker not found." and returns (modelled `notFoundError`).  Otherwise one
row is inserted:
`INSERT INTO tasks (worker_id, worker_username, task_description, status)
 VALUES (?, ?, ?, 'pending');`. -/
def assignTask (s : Store) (workerId : Nat) (taskDescription : String) :
    Except EHSError Store :=
  match s.users.find? (fun u => u.id = workerId) with
  | none => .error .notFoundError
  | some u =>
      .ok { s with
              tasks := s.tasks ++
                [{ id := s.nextTaskId, workerId := workerId,
                   workerUsername := u.username,
                   taskDescription := taskDescription, status := "pending",
                   violationComment := none, violationTimestamp := none,
                   workerReport := none, workerMedia := none }],
              nextTaskId := s.nextTaskId + 1 }

/-- `Manager::reportViolation` (manager.cpp lines 108-184).  The status
input loop (lines 142-160) rejects an empty or purely numeric status
(modelled `validationError`, no write).  The local `comment` declared at
line 111 is never assigned from any input before being bound at line 173,
so the UPDATE always writes the empty string into `violation_comment`.
The UPDATE
`UPDATE tasks SET status = ?, violation_comment = ?, violation_timestamp = ?
 WHERE id = ?;`
touches every row with the given id and reports `SQLITE_DONE` even when no
row matches; there is no existence check. -/
def reportViolation (s : Store) (taskId : Nat) (newStatus : String)
    (now : String) : Except EHSError Store :=
  if newStatus.isEmpty || isNumericStr newStatus then
    .error .validationError
  else
    let comment : String := ""
    .ok { s with
            tasks := s.tasks.map (fun t =>
              if t.id = taskId then
                { t with status := newStatus,
                         violationComment := some comment,
                         violationTimestamp := some now }
              else t) }

/-- The destination path built in the report thread (worker.cpp line 128):
`"./uploads/task_" + std::to_string(taskId) + "_user_" + std::to_string(userId)`. -/
def savedMediaPath (taskId userId : Nat) : String :=
  "./uploads/task_" ++ toString taskId ++ "_user_" ++ toString userId

/-- The commit step of the report thread (worker.cpp lines 139-158):
`UPDATE tasks SET worker_report = ?, worker_media = ?, status = 'completed'
 WHERE id = ? AND worker_id = ?;`.
The returned `Bool` is the `sqlite3_step(stmt) == SQLITE_DONE` test at line
149: an UPDATE that matches zero rows still yields `SQLITE_DONE`, so the
code prints "Task report submitted successfully." regardless of whether a
row was touched. -/
def completeTask (s : Store) (taskId userId : Nat)
    (reportDesc savedPath : String) : Store × Bool :=
  ({ s with
       tasks := s.tasks.map (fun t =>
         if t.id = taskId ∧ t.workerId = userId then
           { t with workerReport := some reportDesc,
                    workerMedia := some savedPath,
                    status := "completed" }
         else t) },
   true)

/-- Modelled from the spec: the `TaskLifecycle.Complete` contract of spec
section 4.1 ("validates the task is currently assigned to `workerId`
(fails `AuthorizationError` otherwise); sets `workerReport`,
`workerMediaPath`, `status="completed"`").  This definition follows the
spec's words, for comparison with `completeTask`, which is translated from
worker.cpp. -/
def completeTaskSpec (s : Store) (taskId userId : Nat)
    (reportDesc savedPath : String) : Except EHSError Store :=
  if s.tasks.any (fun t => decide (t.id = taskId ∧ t.workerId = userId)) then
    .ok { s with
            tasks := s.tasks.map (fun t =>
              if t.id = taskId ∧ t.workerId = userId then
                { t with workerReport := some reportDesc,
                         workerMedia := some savedPath,
                         status := "completed" }
              else t) }
  else
    .error .authorizationError

/-- `Worker::reportTaskWork` (worker.cpp lines 66-168), end to end.
First the assigned-task listing
`SELECT id, ... FROM tasks WHERE worker_id = ? AND status != 'completed';`
collects `validTaskIds`; the selection loop (lines 98-111) rejects any
task id not in that list.  The report thread then copies the media file
(`copyOk` models whether `std::filesystem::copy` succeeds); on a copy
failure the thread returns before the UPDATE (lines 131-136), so the
store is untouched.  On success the commit UPDATE of `completeTask` runs
with the fixed destination path `savedMediaPath taskId userId` — the
caller-supplied `mediaPath` is only the copy source, never stored. -/
def submitReport (s : Store) (taskId userId : Nat)
    (reportDesc mediaPath : String) (copyOk : Bool) : Store × SubmitOutcome :=
  let validTaskIds :=
    ((s.tasks.filter (fun t =>
        decide (t.workerId = userId) && !(decide (t.status = "completed")))).map
      TaskRow.id)
  if taskId ∈ validTaskIds then
    if copyOk then
      ((completeTask s taskId userId reportDesc
          (savedMediaPath taskId userId)).1, .committed)
    else
      (s, .transferFailed)
  else
    (s, .invalidSelection)

/-- `Worker::GiveRuleFeedback` (worker.cpp lines 185-240).  The rule-id
input loop only requires a non-negative number; the UPDATE
`UPDATE rules SET feedback = ? WHERE id = ?` overwrites the single
feedback slot of every matching row, and the `Bool` is again the
`sqlite3_step(stmt) == SQLITE_DONE` test (line 231), which succeeds even
when no row matches. -/
def giveRuleFeedback (s : Store) (ruleId : Nat) (feedback : String) :
    Store × Bool :=
  ({ s with
       rules := s.rules.map (fun r =>
         if r.id = ruleId then { r with feedback := some feedback } else r) },
   true)

/-- `Manager::deleteTask` (manager.cpp lines 304-356):
`DELETE FROM tasks WHERE id = ?;`.  The `Bool` is the
`sqlite3_step(delStmt) == SQLITE_DONE` test at line 349: a DELETE that
matches zero rows still yields `SQLITE_DONE`, so the code prints
"Task deleted successfully." even when nothing was deleted. -/
def deleteTask (s : Store) (taskId : Nat) : Store × Bool :=
  ({ s with tasks := s.tasks.filter (fun t => !(decide (t.id = taskId))) },
   true)

/-- `Manager::deleteRule` (manager.cpp lines 243-294):
`DELETE FROM rules WHERE id = ?;`, with the same `SQLITE_DONE` success
report whether or not a row matched. -/
def deleteRule (s : Store) (ruleId : Nat) : Store × Bool :=
  ({ s with rules := s.rules.filter (fun r => !(decide (r.id = ruleId))) },
   true)

/-- `Manager::addRule` (manager.cpp lines 194-233).  The input loop rejects
an empty rule text (modelled `validationError`); otherwise one row is
inserted with the current timestamp: `INSERT INTO rules (rule_text,
timestamp) VALUES (?, ?);`.  Rule ids, like task ids, come from SQLite
`AUTOINCREMENT`; the model reuses the row count + 1 as a fresh id, which is
irrelevant to the theorems below. -/
def addRule (s : Store) (ruleText now : String) : Except EHSError Store :=
  if ruleText.isEmpty then
    .error .validationError
  else
    .ok { s with
            rules := s.rules ++
              [{ id := s.rules.length + 1, ruleText := ruleText,
                 feedback := none, timestamp := now }] }

/-!
Lock-usage model.  `db_mutex` is a single process-wide mutex declared at
worker.cpp line 9.  To check which database statements run while it is
held, each C++ operation is transcribed into the ordered list of its
lock/database actions, exactly as they appear in the source.
-/

/-- One lock or database action, in source order. -/
inductive DbAction where
  | lockAcquire
  | lockRelease
  | dbRead (table : String)
  | dbWrite (table : String)
deriving Repr, DecidableEq

/-- Actions of the assigned-task listing at the start of
`Worker::reportTaskWork` (worker.cpp lines 75-95): a `lock_guard` on
`db_mutex` around the SELECT. -/
def workerTaskListActions : List DbAction :=
  [.lockAcquire, .dbRead "tasks", .lockRelease]

/-- Actions of the report thread's commit (worker.cpp lines 139-158): a
`lock_guard` on `db_mutex` around the UPDATE of `tasks`. -/
def workerCommitActions : List DbAction :=
  [.lockAcquire, .dbWrite "tasks", .lockRelease]

/-- Actions of `Worker::GiveRuleFeedback` (worker.cpp lines 185-240): a
SELECT over `rules` and then the feedback UPDATE, with no lock anywhere in
the function. -/
def giveRuleFeedbackActions : List DbAction :=
  [.dbRead "rules", .dbWrite "rules"]

/-- Actions of `Manager::assignTask` (manager.cpp lines 31-98): two SELECTs
over `users` and the task INSERT, with no lock anywhere in the function. -/
def assignTaskActions : List DbAction :=
  [.dbRead "users", .dbRead "users", .dbWrite "tasks"]

/-- Actions of `Manager::reportViolation` (manager.cpp lines 108-184): a
SELECT over `tasks` and the violation UPDATE, with no lock anywhere in the
function. -/
def reportViolationActions : List DbAction :=
  [.dbRead "tasks", .dbWrite "tasks"]

/-- Actions of `Manager::addRule` (manager.cpp lines 194-233): the rule
INSERT, with no lock. -/
def addRuleActions : List DbAction :=
  [.dbWrite "rules"]

/-- Actions of `Manager::deleteRule` (manager.cpp lines 243-294): a SELECT
over `rules` and the DELETE, with no lock. -/
def deleteRuleActions : List DbAction :=
  [.dbRead "rules", .dbWrite "rules"]

/-- Actions of `Manager::deleteTask` (manager.cpp lines 304-356): a SELECT
over `tasks` and the DELETE, with no lock. -/
def deleteTaskActions : List DbAction :=
  [.dbRead "tasks", .dbWrite "tasks"]

/-- Helper for `writesLocked`: scans the action list keeping the current
lock-hold depth and demands every `dbWrite` happen at positive depth. -/
def writesLockedAux : Nat → List DbAction → Bool
  | _, [] => true
  | d, .lockAcquire :: rest => writesLockedAux (d + 1) rest
  | d, .lockRelease :: rest => writesLockedAux (d - 1) rest
  | d, .dbRead _ :: rest => writesLockedAux d rest
  | d, .dbWrite _ :: rest => decide (0 < d) && writesLockedAux d rest

/-- An operation's writes are all covered by the lock. -/
def writesLocked (tr : List DbAction) : Bool :=
  writesLockedAux 0 tr

/-- The operation performs at least one database write. -/
def hasDbWrite (tr : List DbAction) : Bool :=
  tr.any (fun a => match a with | .dbWrite _ => true | _ => false)

/-!
Concrete stores used by counterexamples and witnesses.
-/

/-- A store with no rows at all. -/
def emptyStore : Store :=
  { users := [], tasks := [], rules := [], nextTaskId := 1 }

/-- A pending task with id 1 assigned to worker 5 (spec scenario 1/2). -/
def pendingTask15 : TaskRow :=
  { id := 1, workerId := 5, workerUsername := "alex",
    taskDescription := "Wear PPE", status := "pending",
    violationComment := none, violationTimestamp := none,
    workerReport := none, workerMedia := none }

/-- Store holding just `pendingTask15`. -/
def storePending15 : Store :=
  { users := [{ id := 5, username := "alex", password := "h", role := "worker" }],
    tasks := [pendingTask15], rules := [], nextTaskId := 2 }

/-- A completed task with id 1 assigned to worker 5 (spec scenario 3 starts
from a completed task). -/
def completedTask15 : TaskRow :=
  { id := 1, workerId := 5, workerUsername := "alex",
    taskDescription := "Wear PPE", status := "completed",
    violationComment := none, violationTimestamp := none,
    workerReport := some "PPE confirmed",
    workerMedia := some "./uploads/task_1_user_5" }

/-- Store holding just `completedTask15`. -/
def storeCompleted15 : Store :=
  { users := [{ id := 5, username := "alex", password := "h", role := "worker" }],
    tasks := [completedTask15], rules := [], nextTaskId := 2 }

/-- Store whose only user is a manager (no worker-role user at all). -/
def storeManagerOnly : Store :=
  { users := [{ id := 1, username := "boss", password := "h", role := "manager" }],
    tasks := [], rules := [], nextTaskId := 1 }

/-- In `storeManagerOnly`, no user has the worker role. -/
def noWorkerRoleUser (s : Store) : Bool :=
  s.users.all (fun u => !(decide (u.role = "worker")))

/-- Store with a pending task with id 1 assigned to worker 2 (used to probe
the commit UPDATE with the wrong worker id). -/
def storeOtherWorker : Store :=
  { users := [{ id := 2, username := "mia", password := "h", role := "worker" }],
    tasks := [{ id := 1, workerId := 2, workerUsername := "mia",
                taskDescription := "Check exits", status := "pending",
                violationComment := none, violationTimestamp := none,
                workerReport := none, workerMedia := none }],
    rules := [], nextTaskId := 2 }

/-- Store with one rule, id 3, no feedback yet. -/
def storeOneRule : Store :=
  { users := [], tasks := [],
    rules := [{ id := 3, ruleText := "Wear gloves", feedback := none,
                timestamp := "2025-10-05 10:00:00" }],
    nextTaskId := 1 }

/-!
Helper lemmas shared by several theorems below.
-/

/-- Mapping a function that fixes every element of a list is the identity. -/
theorem map_id_of_forall {α : Type} (l : List α) (f : α → α)
    (h : ∀ a ∈ l, f a = a) : l.map f = l := by
  induction l with
  | nil => rfl
  | cons a l ih =>
      simp only [List.map_cons]
      rw [h a (by simp), ih (fun b hb => h b (by simp [hb]))]

/-- The destination path of a report upload is never the empty string. -/
theorem savedMediaPath_ne_empty (taskId userId : Nat) :
    savedMediaPath taskId userId ≠ "" := by
  intro h
  have h15 : ("./uploads/task_" : String).length = 15 := rfl
  have h6 : ("_user_" : String).length = 6 := rfl
  have hlen := congrArg String.length h
  rw [savedMediaPath, String.length_append, String.length_append,
      String.length_append, h15, h6] at hlen
  simp only [String.length, List.length_nil] at hlen
  omega

/-- Claim C2: whenever the media-transfer step of a Submit fails (the copy
throws, modelled `copyOk = false`), the unit of work performs no Store
mutation at all: the store after `Worker::reportTaskWork` is exactly the
store before, so the task row keeps its status and neither the report text
nor the media path is persisted. -/
theorem submit_transfer_failure_no_mutation (s : Store) (taskId userId : Nat)
    (reportDesc mediaPath : String) :
    (submitReport s taskId userId reportDesc mediaPath false).1 = s := by
  simp only [submitReport]
  split <;> rfl

/-- Claim C4: `Manager::reportViolation` with an empty or purely numeric
new status is rejected by the status-validation loop before any database
statement runs: the operation ends in `validationError` and the store is
untouched. -/
theorem reportViolation_rejects_invalid_status (s : Store) (taskId : Nat)
    (newStatus now : String)
    (h : newStatus = "" ∨ isNumericStr newStatus = true) :
    reportViolation s taskId newStatus now =
      Except.error EHSError.validationError := by
  rcases h with h | h
  · subst h; rfl
  · simp [reportViolation, h]

/-- Witness for claim C4 at the concrete status `"42"`. -/
theorem reportViolation_rejects_invalid_status_witness :
    ("42" = "" ∨ isNumericStr "42" = true) ∧
      reportViolation storeCompleted15 1 "42" "ts" =
        Except.error EHSError.validationError :=
  ⟨Or.inr (by decide),
   reportViolation_rejects_invalid_status storeCompleted15 1 "42" "ts"
     (Or.inr (by decide))⟩

/-- Claim C10: `Worker::GiveRuleFeedback` on a rule id that matches no rule
touches no row (the UPDATE matches nothing) yet still reports success
(`SQLITE_DONE`): the result is the unchanged store paired with `true`, and
no error of any kind is signalled. -/
theorem giveFeedback_missing_rule_no_change (s : Store) (ruleId : Nat)
    (fb : String) (h : ∀ r ∈ s.rules, r.id ≠ ruleId) :
    giveRuleFeedback s ruleId fb = (s, true) := by
  have hmap : (s.rules.map fun r =>
      if r.id = ruleId then { r with feedback := some fb } else r) = s.rules :=
    map_id_of_forall _ _ (fun r hr => if_neg (h r hr))
  simp only [giveRuleFeedback, hmap]

/-- Witness for claim C10: feedback on the absent rule id 7. -/
theorem giveFeedback_missing_rule_no_change_witness :
    giveRuleFeedback storeOneRule 7 "unclear" = (storeOneRule, true) :=
  giveFeedback_missing_rule_no_change storeOneRule 7 "unclear" (by decide)

/-- Claim C7: for a rule present in the Store, running
`Worker::GiveRuleFeedback` twice in sequence leaves the single feedback
slot holding only the second text — the second UPDATE fully overwrites the
first (last-write-wins, no append, no versioning). -/
theorem giveFeedback_last_write_wins (s : Store) (ruleId : Nat)
    (fa fb : String) (r0 : Rule) (h0 : r0 ∈ s.rules) (hid : r0.id = ruleId) :
    (∀ r ∈ ((giveRuleFeedback (giveRuleFeedback s ruleId fa).1 ruleId fb).1).rules,
        r.id = ruleId → r.feedback = some fb) ∧
    (∃ r ∈ ((giveRuleFeedback (giveRuleFeedback s ruleId fa).1 ruleId fb).1).rules,
        r.id = ruleId) := by
  constructor
  · intro r hr hrid
    simp only [giveRuleFeedback] at hr
    obtain ⟨r1, hr1, rfl⟩ := List.mem_map.1 hr
    by_cases hc : r1.id = ruleId
    · rw [if_pos hc]
    · rw [if_neg hc] at hrid
      exact absurd hrid hc
  · refine ⟨{ r0 with feedback := some fb }, ?_, hid⟩
    simp only [giveRuleFeedback]
    refine List.mem_map.2
      ⟨{ r0 with feedback := some fa },
       List.mem_map.2 ⟨r0, h0, by rw [if_pos hid]⟩, ?_⟩
    rw [if_pos hid]

/-- Witness for claim C7: spec scenario 4 — feedback "unclear" then
"clear now" on rule 3 leaves "clear now" only. -/
theorem giveFeedback_last_write_wins_witness :
    (∀ r ∈ ((giveRuleFeedback (giveRuleFeedback storeOneRule 3 "unclear").1
               3 "clear now").1).rules,
        r.id = 3 → r.feedback = some "clear now") ∧
    (∃ r ∈ ((giveRuleFeedback (giveRuleFeedback storeOneRule 3 "unclear").1
               3 "clear now").1).rules,
        r.id = 3) :=
  giveFeedback_last_write_wins storeOneRule 3 "unclear" "clear now"
    { id := 3, ruleText := "Wear gloves", feedback := none,
      timestamp := "2025-10-05 10:00:00" }
    (by decide) rfl

/-- Claim C8 (counterexample): on a store with no task rows at all,
`Manager::deleteTask 1` still reports success — the DELETE matches zero
rows but `sqlite3_step` yields `SQLITE_DONE`, so the claim that the
operation "reports false" when the row did not exist is wrong. -/
theorem deleteTask_missing_row_reports_success :
    emptyStore.tasks = [] ∧ (deleteTask emptyStore 1).2 = true ∧
      ¬((deleteTask emptyStore 1).2 = false) :=
  ⟨rfl, rfl, by decide⟩

/-- Claim C8 (amended): `Manager::deleteTask` removes every row with the
given id, so the id disappears from both the manager listing (`listAll`)
and every worker listing (`listForWorker`); when no row with that id
existed, it removes nothing but still reports success (`SQLITE_DONE`),
not false. -/
theorem deleteTask_removes_from_listings (s : Store) (taskId : Nat) :
    (∀ t ∈ listAll (deleteTask s taskId).1, t.id ≠ taskId) ∧
    (∀ w, ∀ t ∈ listForWorker (deleteTask s taskId).1 w, t.id ≠ taskId) ∧
    ((∀ t ∈ s.tasks, t.id ≠ taskId) → deleteTask s taskId = (s, true)) := by
  refine ⟨?_, ?_, ?_⟩
  · intro t ht
    simp only [listAll, deleteTask, List.mem_filter, Bool.not_eq_true',
      decide_eq_false_iff_not] at ht
    exact ht.2
  · intro w t ht
    simp only [listForWorker, deleteTask, List.mem_filter] at ht
    have := ht.1
    simp only [List.mem_filter, Bool.not_eq_true', decide_eq_false_iff_not]
      at this
    exact this.2
  · intro h
    have hfil : (s.tasks.filter fun t => !(decide (t.id = taskId))) = s.tasks := by
      rw [List.filter_eq_self]
      intro t ht
      simp [h t ht]
    simp only [deleteTask, hfil]

/-- Witness for the amended claim C8 on the empty store. -/
theorem deleteTask_removes_from_listings_witness :
    deleteTask emptyStore 1 = (emptyStore, true) :=
  (deleteTask_removes_from_listings emptyStore 1).2.2 (by decide)

/-- Claim C5 (counterexample): task 1 belongs to worker 2, yet the commit
UPDATE run for worker 5 does not fail with any authorization error — the
WHERE clause matches zero rows, `sqlite3_step` yields `SQLITE_DONE`, and
the code prints "Task report submitted successfully.": the result is the
unchanged store paired with success.  The spec-side model
`completeTaskSpec`, which follows the claim's words, returns
`authorizationError` on the same input. -/
theorem completeTask_wrong_worker_reports_success :
    completeTask storeOtherWorker 1 5 "fixed" "./uploads/task_1_user_5" =
      (storeOtherWorker, true) ∧
    completeTaskSpec storeOtherWorker 1 5 "fixed" "./uploads/task_1_user_5" =
      Except.error EHSError.authorizationError :=
  ⟨by decide, by decide⟩

/-- Claim C5 (amended): when no task row is both numbered `taskId` and
assigned to `workerId`, the commit UPDATE of `Worker::reportTaskWork`
mutates no row — but it reports success (`SQLITE_DONE`) rather than
failing with an authorization error. -/
theorem completeTask_unassigned_no_mutation (s : Store) (taskId userId : Nat)
    (reportDesc savedPath : String)
    (h : ∀ t ∈ s.tasks, ¬(t.id = taskId ∧ t.workerId = userId)) :
    completeTask s taskId userId reportDesc savedPath = (s, true) := by
  have hmap : (s.tasks.map fun t =>
      if t.id = taskId ∧ t.workerId = userId then
        { t with workerReport := some reportDesc,
                 workerMedia := some savedPath, status := "completed" }
      else t) = s.tasks :=
    map_id_of_forall _ _ (fun t ht => if_neg (h t ht))
  simp only [completeTask, hmap]

/-- Witness for the amended claim C5 with worker 5 on worker 2's task. -/
theorem completeTask_unassigned_no_mutation_witness :
    completeTask storeOtherWorker 1 5 "done" "p" = (storeOtherWorker, true) :=
  completeTask_unassigned_no_mutation storeOtherWorker 1 5 "done" "p"
    (by decide)

/-- Claim C6 (counterexample): in a store whose only user is a manager
(no user has the worker role), `Manager::assignTask` for that manager's id
does not fail — the lookup `SELECT username FROM users WHERE id = ?` never
checks the role, so a task is inserted and assigned to the manager, where
the claim demands `notFoundError`. -/
theorem assignTask_accepts_manager_id :
    noWorkerRoleUser storeManagerOnly = true ∧
    assignTask storeManagerOnly 1 "Wear PPE" ≠
      Except.error EHSError.notFoundError ∧
    (assignTask storeManagerOnly 1 "Wear PPE").toOption =
      some { storeManagerOnly with
               tasks := [{ id := 1, workerId := 1, workerUsername := "boss",
                           taskDescription := "Wear PPE", status := "pending",
                           violationComment := none, violationTimestamp := none,
                           workerReport := none, workerMedia := none }],
               nextTaskId := 2 } :=
  ⟨rfl, by decide, rfl⟩

/-- Claim C6 (amended): `Manager::assignTask` validates only that some
user row has the given id — the role is never consulted.  If no user has
the id, it fails with `notFoundError` and inserts nothing; if any user
(worker or manager) has the id, it performs exactly one insert, appending
a task with status "pending" assigned to that id. -/
theorem assignTask_checks_existence_only (s : Store) (workerId : Nat)
    (d : String) :
    ((∀ u ∈ s.users, u.id ≠ workerId) →
        assignTask s workerId d = Except.error EHSError.notFoundError) ∧
    (∀ s2, assignTask s workerId d = Except.ok s2 →
        ∃ newTask, s2.tasks = s.tasks ++ [newTask] ∧
          newTask.status = "pending" ∧ newTask.workerId = workerId) := by
  constructor
  · intro h
    have hf : s.users.find? (fun u => decide (u.id = workerId)) = none := by
      rw [List.find?_eq_none]
      intro u hu
      simp [h u hu]
    simp [assignTask, hf]
  · intro s2 h2
    unfold assignTask at h2
    split at h2
    · cases h2
    · cases h2
      exact ⟨_, rfl, rfl, rfl⟩

/-- Witness for the amended claim C6: the missing id 7 on the empty store
fails with `notFoundError`; the manager id 1 in `storeManagerOnly` gets a
pending task inserted. -/
theorem assignTask_checks_existence_only_witness :
    assignTask emptyStore 7 "check" = Except.error EHSError.notFoundError ∧
    (∃ newTask,
        ((assignTask storeManagerOnly 1 "Wear PPE").toOption.getD
            emptyStore).tasks =
          storeManagerOnly.tasks ++ [newTask] ∧
        newTask.status = "pending" ∧ newTask.workerId = 1) :=
  ⟨(assignTask_checks_existence_only emptyStore 7 "check").1 (by decide),
   (assignTask_checks_existence_only storeManagerOnly 1 "Wear PPE").2
     ((assignTask storeManagerOnly 1 "Wear PPE").toOption.getD emptyStore)
     (by decide)⟩

/-- Claim C1: a successful Submit — the task id was listed for this worker,
the media copy succeeded (`copyOk = true`) and the commit ran — leaves the
task row with status "completed", the submitted report text, and the fixed
upload path `./uploads/task_<taskId>_user_<workerId>`, which is non-empty
and independent of the caller-supplied media path. -/
theorem submit_success_completes_task (s s2 : Store) (taskId userId : Nat)
    (reportDesc mediaPath : String)
    (hnd : (s.tasks.map TaskRow.id).Nodup)
    (h : submitReport s taskId userId reportDesc mediaPath true =
      (s2, SubmitOutcome.committed)) :
    (∀ t ∈ s2.tasks, t.id = taskId →
        t.status = "completed" ∧ t.workerReport = some reportDesc ∧
        t.workerMedia = some (savedMediaPath taskId userId)) ∧
    savedMediaPath taskId userId ≠ "" := by
  refine ⟨?_, savedMediaPath_ne_empty taskId userId⟩
  intro t ht hid
  simp only [submitReport] at h
  split at h
  next hmem =>
    rw [if_pos trivial] at h
    injection h with h1 h2
    subst h1
    simp only [completeTask] at ht
    obtain ⟨u, hu, rfl⟩ := List.mem_map.1 ht
    simp only [List.mem_map, List.mem_filter, Bool.and_eq_true,
      decide_eq_true_eq, Bool.not_eq_true', decide_eq_false_iff_not] at hmem
    obtain ⟨t0, ⟨ht0mem, ht0w, ht0s⟩, ht0id⟩ := hmem
    by_cases hc : u.id = taskId ∧ u.workerId = userId
    · rw [if_pos hc]
      exact ⟨rfl, rfl, rfl⟩
    · rw [if_neg hc] at hid
      have hut : u = t0 :=
        List.inj_on_of_nodup_map hnd hu ht0mem (by rw [hid, ht0id])
      exact absurd ⟨hid, hut ▸ ht0w⟩ hc
  next hmem =>
    injection h with h1 h2
    exact SubmitOutcome.noConfusion h2

/-- Witness for claim C1: spec scenario 2 on `storePending15`. -/
theorem submit_success_completes_task_witness :
    (∀ t ∈ (submitReport storePending15 1 5 "PPE confirmed" "/tmp/img.jpg"
        true).1.tasks,
      t.id = 1 →
      t.status = "completed" ∧ t.workerReport = some "PPE confirmed" ∧
      t.workerMedia = some (savedMediaPath 1 5)) ∧
    savedMediaPath 1 5 ≠ "" :=
  submit_success_completes_task storePending15
    (submitReport storePending15 1 5 "PPE confirmed" "/tmp/img.jpg" true).1
    1 5 "PPE confirmed" "/tmp/img.jpg" (by decide) (by decide)

/-- Claim C3 (code bug): `Manager::reportViolation` never reads the
violation comment from its caller — the local `comment` declared at
manager.cpp line 111 is still empty when it is bound into the UPDATE at
line 173.  On spec scenario 3 (`ReportViolation(1, "violation",
"no helmet")` against the completed task 1) the stored comment is the
empty string, not "no helmet"; the status and timestamp are written as
claimed. -/
theorem reportViolation_writes_empty_comment :
    (reportViolation storeCompleted15 1 "violation"
        "Sun Oct  5 10:00:00 2025").toOption.bind (fun s2 => taskById s2 1) =
      some { completedTask15 with
               status := "violation",
               violationComment := some "",
               violationTimestamp := some "Sun Oct  5 10:00:00 2025" } ∧
    (some "" : Option String) ≠ some "no helmet" :=
  ⟨by decide, by decide⟩

/-- Claim C9 (counterexample): `Manager::reportViolation` performs a
database write (the violation UPDATE, manager.cpp lines 170-182) with the
process-wide `db_mutex` never acquired — `db_mutex` is not even visible in
manager.cpp — so not every mutating Store operation is serialized by the
single write lock. -/
theorem reportViolation_write_not_locked :
    hasDbWrite reportViolationActions = true ∧
      writesLocked reportViolationActions = false :=
  ⟨rfl, rfl⟩

/-- Claim C9 (amended): only worker.cpp acquires `db_mutex` — the task-list
read and the commit UPDATE of `Worker::reportTaskWork` run under the lock,
while every mutating operation of manager.cpp (task insert, violation
update, rule insert, rule delete, task delete) and the feedback UPDATE of
`Worker::GiveRuleFeedback` hit the database with no lock held. -/
theorem only_report_thread_writes_locked :
    writesLocked workerTaskListActions = true ∧
    writesLocked workerCommitActions = true ∧
    writesLocked assignTaskActions = false ∧
    writesLocked reportViolationActions = false ∧
    writesLocked addRuleActions = false ∧
    writesLocked deleteRuleActions = false ∧
    writesLocked deleteTaskActions = false ∧
    writesLocked giveRuleFeedbackActions = false :=
  ⟨rfl, rfl, rfl, rfl, rfl, rfl, rfl, rfl⟩
